import Mathlib

/-!
Shallow embedding of `src/password.py` (Locationgrabber): a utility that
gathers host and network identity, prints a report into a captured stdout
buffer, and posts the captured text to a webhook.

External effects (socket primitives, `urllib` fetches, `json.loads`,
`requests.post`) are modelled as oracle parameters.  Each embedded function
returns the list of observable events it produces together with its Python
return value; `Except PyExc` marks a Python exception raised past the
function's own handlers (an uncaught exception at module level means the
process dies with a traceback and a nonzero exit status).
-/

namespace Locationgrabber

/-- The classes of Python exceptions that the handlers in the source
distinguish: `sockErr` stands for `socket.error` (an alias of `OSError`,
covering `socket.gaierror` etc.), `attrErr` for `AttributeError`, and
`otherErr` for any other `Exception`. -/
inductive PyExc where
  | sockErr
  | attrErr
  | otherErr
deriving DecidableEq

/-- Observable events of a run: one `urllib.request.urlopen(url, timeout)`
attempt, a `time.sleep`, a `print` to the (captured) stdout, the creation and
closing of the datagram socket in `get_local_info`, and a `requests.post` to
the webhook carrying the JSON payload's `content` field and its timeout.
Diagnostics printed to stderr are not captured and are not modelled. -/
inductive Ev where
  | fetch (url : String) (attempt : Nat) (timeoutSecs : Nat)
  | sleep (secs : Nat)
  | printOut (line : String)
  | sockOpen
  | sockClose
  | post (content : String) (timeoutSecs : Nat)
deriving DecidableEq

/-- `PUBLIC_IP_SERVICE_URL = "https://api.ipify.org?format=text"`. -/
def PUBLIC_IP_SERVICE_URL : String := "https://api.ipify.org?format=text"

/-- `GEOLOCATION_SERVICE_URL = "https://ipinfo.io/json"`. -/
def GEOLOCATION_SERVICE_URL : String := "https://ipinfo.io/json"

/-- `MAX_RETRIES = 3`. -/
def MAX_RETRIES : Nat := 3

/-- `INITIAL_DELAY = 1` (seconds). -/
def INITIAL_DELAY : Nat := 1

/-- The text accumulated in the `io.StringIO` buffer by a list of events:
each `print(line)` writes `line` followed by a newline; no other event
writes to stdout. -/
def render : List Ev → String
  | [] => ""
  | Ev.printOut s :: rest => s ++ "\n" ++ render rest
  | _ :: rest => render rest

/-- Number of `urlopen` attempts against `url` in a trace. -/
def fetchCountTo (url : String) (tr : List Ev) : Nat :=
  tr.countP fun e =>
    match e with
    | Ev.fetch u _ _ => u == url
    | _ => false

/-- Number of `urlopen` attempts (to any URL) in a trace. -/
def fetchCount (tr : List Ev) : Nat :=
  tr.countP fun e =>
    match e with
    | Ev.fetch _ _ _ => true
    | _ => false

/-- Number of `requests.post` calls in a trace. -/
def postCount (tr : List Ev) : Nat :=
  tr.countP fun e =>
    match e with
    | Ev.post _ _ => true
    | _ => false

/-- Number of socket creations in a trace. -/
def sockOpenCount (tr : List Ev) : Nat :=
  tr.countP fun e =>
    match e with
    | Ev.sockOpen => true
    | _ => false

/-- Number of socket closes in a trace. -/
def sockCloseCount (tr : List Ev) : Nat :=
  tr.countP fun e =>
    match e with
    | Ev.sockClose => true
    | _ => false

/-- Outcomes of `json.loads` on a response body, classified by what the
subsequent `data.get(...)` calls need: a decode failure
(`json.JSONDecodeError`), a successful parse whose result is not a dict
(so it has no `.get` method), or a dict.  Field values are taken in their
f-string rendering, which is how the source consumes them. -/
inductive JsonOutcome where
  | decodeError
  | nonObject
  | object (fields : List (String × String))
deriving DecidableEq

/-- Python `str.strip()` with no argument: remove leading and trailing
whitespace characters from the string. -/
def pyStrip (s : String) : String :=
  ⟨((s.data.dropWhile Char.isWhitespace).reverse.dropWhile Char.isWhitespace).reverse⟩

/-- `data.get(key, dflt)` on the parsed dict. -/
def dictGet (fields : List (String × String)) (key dflt : String) : String :=
  match fields.lookup key with
  | some v => v
  | none => dflt

/-- Outcomes of the socket primitives used by `get_local_info`:
`gethostname` for `socket.gethostname()`, `socketCreate` for
`socket.socket(AF_INET, SOCK_DGRAM)`, `connectGetsockname` for
`s.connect(("8.8.8.8", 1))` followed by `s.getsockname()[0]`, and
`gethostbyname` for `socket.gethostbyname(hostname)`.  An `Except.error`
outcome is the primitive raising an exception of that class. -/
structure LocalEnv where
  gethostname : Except PyExc String
  socketCreate : Except PyExc Unit
  connectGetsockname : Except PyExc String
  gethostbyname : Except PyExc String

/-- `get_local_info()`.  The inner `try` catches any `Exception` around the
connect trick and falls back to `socket.gethostbyname`; the `finally` closes
the socket on every path out of the inner block; the outer `try` catches
only `socket.error` and then returns `(hostname, "N/A")` with whatever
`hostname` holds at that point (still `"N/A"` if `gethostname` itself was
what raised).  An exception that is not a `socket.error`, raised by a
primitive outside the inner `except Exception` block, escapes to the
caller. -/
def get_local_info (env : LocalEnv) : List Ev × Except PyExc (String × String) :=
  match env.gethostname with
  | Except.error PyExc.sockErr => ([], Except.ok ("N/A", "N/A"))
  | Except.error e => ([], Except.error e)
  | Except.ok hostname =>
    match env.socketCreate with
    | Except.error PyExc.sockErr => ([], Except.ok (hostname, "N/A"))
    | Except.error e => ([], Except.error e)
    | Except.ok _ =>
      match env.connectGetsockname with
      | Except.ok local_ip => ([Ev.sockOpen, Ev.sockClose], Except.ok (hostname, local_ip))
      | Except.error _ =>
        match env.gethostbyname with
        | Except.ok local_ip => ([Ev.sockOpen, Ev.sockClose], Except.ok (hostname, local_ip))
        | Except.error PyExc.sockErr => ([Ev.sockOpen, Ev.sockClose], Except.ok (hostname, "N/A"))
        | Except.error e => ([Ev.sockOpen, Ev.sockClose], Except.error e)

/-- The attempt loop of `fetch_data_with_retry`, unrolled on the number of
remaining loop iterations (`fuel`); `attempt` is the current value of the
loop variable.  `oracle attempt = some body` is `urlopen` succeeding with
that (decoded) body; `none` is the attempt raising (`URLError` or any other
`Exception` — both are handled identically apart from the stderr text).
After a failed attempt that is not the last, the loop sleeps
`INITIAL_DELAY * 2 ^ attempt` seconds. -/
def fetchAttempts (url : String) (oracle : Nat → Option String) :
    Nat → Nat → List Ev × Option String
  | _, 0 => ([], none)
  | attempt, fuel + 1 =>
    match oracle attempt with
    | some body => ([Ev.fetch url attempt 5], some body)
    | none =>
      let rest := fetchAttempts url oracle (attempt + 1) fuel
      if attempt < MAX_RETRIES - 1 then
        (Ev.fetch url attempt 5 :: Ev.sleep (INITIAL_DELAY * 2 ^ attempt) :: rest.1, rest.2)
      else
        (Ev.fetch url attempt 5 :: rest.1, rest.2)

/-- `fetch_data_with_retry(url)`: runs the loop `for attempt in
range(MAX_RETRIES)` and returns `None` when all attempts are exhausted. -/
def fetch_data_with_retry (url : String) (oracle : Nat → Option String) :
    List Ev × Option String :=
  fetchAttempts url oracle 0 MAX_RETRIES

/-- `get_public_ip()`: fetches `PUBLIC_IP_SERVICE_URL`; `if ip_data:` is
Python truthiness, so both `None` and an empty body fall through to the
sentinel. -/
def get_public_ip (oracle : Nat → Option String) : List Ev × String :=
  let r := fetch_data_with_retry PUBLIC_IP_SERVICE_URL oracle
  match r.2 with
  | some ip_data =>
    if ip_data ≠ "" then (r.1, pyStrip ip_data) else (r.1, "N/A (Connection Failed)")
  | none => (r.1, "N/A (Connection Failed)")

/-- `get_geolocation(public_ip)`: short-circuits on the WAN-failure sentinel
before any network call; otherwise fetches `GEOLOCATION_SERVICE_URL` and, on
a truthy body, runs `json.loads` inside a `try` whose only handler is
`except json.JSONDecodeError`.  A parse that succeeds but does not yield a
dict makes `data.get("city", ...)` raise `AttributeError`, which no handler
here catches. -/
def get_geolocation (public_ip : String) (oracle : Nat → Option String)
    (jsonLoads : String → JsonOutcome) : List Ev × Except PyExc String :=
  if public_ip = "N/A (Connection Failed)" then
    ([], Except.ok "N/A (Requires Public IP)")
  else
    let r := fetch_data_with_retry GEOLOCATION_SERVICE_URL oracle
    match r.2 with
    | some location_data =>
      if location_data ≠ "" then
        match jsonLoads location_data with
        | JsonOutcome.object data =>
          let city := dictGet data "city" "Unknown City"
          let region := dictGet data "region" "Unknown Region"
          let country := dictGet data "country" "Unknown Country"
          (r.1, Except.ok (city ++ ", " ++ region ++ ", " ++ country))
        | JsonOutcome.decodeError =>
          (r.1, Except.ok "N/A (Invalid response from location service)")
        | JsonOutcome.nonObject => (r.1, Except.error PyExc.attrErr)
      else (r.1, Except.ok "N/A (Location Lookup Failed)")
    | none => (r.1, Except.ok "N/A (Location Lookup Failed)")

/-- The external world one call of `main()` interacts with: the socket
primitives, one fetch oracle per service, and the behaviour of
`json.loads` on geolocation bodies. -/
structure Env where
  localEnv : LocalEnv
  ipOracle : Nat → Option String
  geoOracle : Nat → Option String
  jsonLoads : String → JsonOutcome

/-- `main()`: prints the report in source order.  An exception escaping
`get_local_info` or `get_geolocation` aborts `main` after the prints already
made (they are in the buffer) and propagates to the caller. -/
def main (env : Env) : List Ev × Except PyExc Unit :=
  let header : List Ev :=
    [Ev.printOut "--------------------------------------------------",
     Ev.printOut "        Network and Host Information Utility        ",
     Ev.printOut "--------------------------------------------------",
     Ev.printOut "\n[LOCAL NETWORK INFORMATION (No external calls)]"]
  let li := get_local_info env.localEnv
  match li.2 with
  | Except.error e => (header ++ li.1, Except.error e)
  | Except.ok (hostname, local_ip) =>
    let localLines : List Ev :=
      [Ev.printOut ("Desktop Name (Hostname): " ++ hostname),
       Ev.printOut ("Local IP Address (LAN):  " ++ local_ip),
       Ev.printOut "\n[PUBLIC NETWORK INFORMATION (Requires external calls)]"]
    let pi := get_public_ip env.ipOracle
    let public_ip := pi.2
    let wanLine : List Ev := [Ev.printOut ("Public IP Address (WAN): " ++ public_ip)]
    if public_ip ≠ "N/A (Connection Failed)" then
      let geo := get_geolocation public_ip env.geoOracle env.jsonLoads
      match geo.2 with
      | Except.ok geolocation =>
        (header ++ li.1 ++ localLines ++ pi.1 ++ wanLine ++ geo.1 ++
          [Ev.printOut ("Estimated Location:      " ++ geolocation),
           Ev.printOut "--------------------------------------------------",
           Ev.printOut "\n[Image of network topology]"], Except.ok ())
      | Except.error e =>
        (header ++ li.1 ++ localLines ++ pi.1 ++ wanLine ++ geo.1, Except.error e)
    else
      (header ++ li.1 ++ localLines ++ pi.1 ++ wanLine ++
        [Ev.printOut "Estimated Location:      N/A (Failed to retrieve Public IP)",
         Ev.printOut "--------------------------------------------------",
         Ev.printOut "\n[Image of network topology]"], Except.ok ())

/-- `send_to_webhook(text)`: builds `payload = {"content": "```json\n" + text
+ "\n```"}` and issues one `requests.post(webhook_url, json=payload,
timeout=3)` inside a bare `try/except: pass`, so the call's outcome never
reaches the caller. -/
def send_to_webhook (text : String) (postOutcome : Except PyExc Unit) :
    List Ev × Except PyExc Unit :=
  let content := "```json\n" ++ text ++ "\n```"
  ([Ev.post content 3],
   match postOutcome with
   | Except.ok _ => Except.ok ()
   | Except.error _ => Except.ok ())

/-- The module top level, run from the first statement after the function
definitions: stdout is already redirected into the buffer at import time.
When `__name__ == "__main__"` the guard calls `main()` (interacting with
`envA`), then the unconditional `main()` call runs (with `envB`); on import
only the unconditional call runs (with `envA`).  An exception escaping
either call kills the process there: no later statement runs, the buffer is
never posted, and the result is `Except.error` (a traceback and exit status
1).  Otherwise stdout is restored, the buffer is read, and
`send_to_webhook(output)` runs; the process then exits 0 (`Except.ok`). -/
def moduleRun (isMain : Bool) (envA envB : Env) (postOutcome : Except PyExc Unit) :
    List Ev × Except PyExc Unit :=
  let guarded := if isMain then main envA else ([], Except.ok ())
  match guarded.2 with
  | Except.error e => (guarded.1, Except.error e)
  | Except.ok _ =>
    let uncond := main (if isMain then envB else envA)
    match uncond.2 with
    | Except.error e => (guarded.1 ++ uncond.1, Except.error e)
    | Except.ok _ =>
      let output := render (guarded.1 ++ uncond.1)
      let w := send_to_webhook output postOutcome
      (guarded.1 ++ uncond.1 ++ w.1, w.2)

/-- A local environment in which every socket primitive succeeds. -/
def lenvOk : LocalEnv :=
  { gethostname := Except.ok "host-machine"
    socketCreate := Except.ok ()
    connectGetsockname := Except.ok "192.168.1.23"
    gethostbyname := Except.ok "127.0.0.1" }

/-- An environment in which every lookup succeeds on its first attempt and
the geolocation body parses to a dict with all three fields. -/
def envOk : Env :=
  { localEnv := lenvOk
    ipOracle := fun _ => some "203.0.113.5\n"
    geoOracle := fun _ => some "\x7b\"city\":\"Paris\",\"region\":\"Ile-de-France\",\"country\":\"FR\"\x7d"
    jsonLoads := fun _ =>
      JsonOutcome.object [("city", "Paris"), ("region", "Ile-de-France"), ("country", "FR")] }

/-- An environment in which the WAN IP lookup succeeds but the geolocation
service answers `"[1, 2]"`: valid JSON whose parse is a list, not a dict. -/
def envBug : Env :=
  { localEnv := lenvOk
    ipOracle := fun _ => some "203.0.113.5\n"
    geoOracle := fun _ => some "[1, 2]"
    jsonLoads := fun _ => JsonOutcome.nonObject }

/-- An environment in which every external interaction fails in a way the
source handles: every socket primitive raises `socket.error` and every fetch
attempt raises. -/
def envFail : Env :=
  { localEnv :=
      { gethostname := Except.error PyExc.sockErr
        socketCreate := Except.error PyExc.sockErr
        connectGetsockname := Except.error PyExc.sockErr
        gethostbyname := Except.error PyExc.sockErr }
    ipOracle := fun _ => none
    geoOracle := fun _ => none
    jsonLoads := fun _ => JsonOutcome.decodeError }

/-- C1: on a URL where every fetch attempt fails, `fetch_data_with_retry`
makes exactly `MAX_RETRIES = 3` attempts (each with the 5-second per-request
timeout), sleeps `INITIAL_DELAY * 2 ^ i` seconds between attempt `i` and
attempt `i + 1` (1 s after the first failed attempt, 2 s after the second),
does not sleep after the final attempt, and returns `None`. -/
theorem fetch_retry_exhaustion (url : String) (oracle : Nat → Option String)
    (h : ∀ i, oracle i = none) :
    fetch_data_with_retry url oracle =
      ([Ev.fetch url 0 5, Ev.sleep 1, Ev.fetch url 1 5, Ev.sleep 2, Ev.fetch url 2 5],
       none) ∧
    fetchCount (fetch_data_with_retry url oracle).1 = MAX_RETRIES := by
  have e : fetch_data_with_retry url oracle =
      ([Ev.fetch url 0 5, Ev.sleep 1, Ev.fetch url 1 5, Ev.sleep 2, Ev.fetch url 2 5],
       none) := by
    simp [fetch_data_with_retry, fetchAttempts, h, MAX_RETRIES, INITIAL_DELAY]
  exact ⟨e, by rw [e]; rfl⟩

/-- Witness for C1 at the concrete oracle that fails every attempt. -/
theorem fetch_retry_exhaustion_witness :
    fetch_data_with_retry "https://api.ipify.org?format=text" (fun _ => none) =
      ([Ev.fetch "https://api.ipify.org?format=text" 0 5, Ev.sleep 1,
        Ev.fetch "https://api.ipify.org?format=text" 1 5, Ev.sleep 2,
        Ev.fetch "https://api.ipify.org?format=text" 2 5], none) ∧
    fetchCount (fetch_data_with_retry "https://api.ipify.org?format=text"
      (fun _ => none)).1 = MAX_RETRIES :=
  fetch_retry_exhaustion "https://api.ipify.org?format=text" (fun _ => none)
    (fun _ => rfl)

/-- C7: for every report text and every outcome of the POST request,
`send_to_webhook` issues exactly one POST whose `content` field is the text
fenced as a code block, with a 3-second timeout, performs no retry, and
returns normally (never raises). -/
theorem webhook_fire_and_forget (text : String) (outcome : Except PyExc Unit) :
    send_to_webhook text outcome =
      ([Ev.post ("```json\n" ++ text ++ "\n```") 3], Except.ok ()) := by
  cases outcome <;> rfl

/-- C8 counterexample: a fetch that completes successfully with an empty
body is a successful fetch, yet `get_public_ip` returns the failure sentinel
`"N/A (Connection Failed)"` instead of the trimmed body `""`. -/
theorem public_ip_empty_body_cex :
    (fetch_data_with_retry PUBLIC_IP_SERVICE_URL (fun _ => some "")).2 = some "" ∧
    (get_public_ip (fun _ => some "")).2 = "N/A (Connection Failed)" ∧
    (get_public_ip (fun _ => some "")).2 ≠ pyStrip "" :=
  ⟨rfl, rfl, by decide⟩

/-- C8 (amended): for every successful WAN IP fetch with a non-empty body,
`get_public_ip` returns that body with surrounding whitespace trimmed; for
every successful fetch with an empty body, and for every exhausted fetch, it
returns the sentinel `"N/A (Connection Failed)"`. -/
theorem public_ip_result (oracle : Nat → Option String) :
    (∀ body, (fetch_data_with_retry PUBLIC_IP_SERVICE_URL oracle).2 = some body →
      body ≠ "" → (get_public_ip oracle).2 = pyStrip body) ∧
    ((fetch_data_with_retry PUBLIC_IP_SERVICE_URL oracle).2 = some "" →
      (get_public_ip oracle).2 = "N/A (Connection Failed)") ∧
    ((fetch_data_with_retry PUBLIC_IP_SERVICE_URL oracle).2 = none →
      (get_public_ip oracle).2 = "N/A (Connection Failed)") := by
  refine ⟨fun body hb hne => ?_, fun hb => ?_, fun hb => ?_⟩
  · simp [get_public_ip, hb, hne]
  · simp [get_public_ip, hb]
  · simp [get_public_ip, hb]

/-- Witness for C8 at the spec's example body `"203.0.113.5\n"`. -/
theorem public_ip_result_witness :
    (get_public_ip (fun _ => some "203.0.113.5\n")).2 = pyStrip "203.0.113.5\n" ∧
    pyStrip "203.0.113.5\n" = "203.0.113.5" :=
  ⟨(public_ip_result (fun _ => some "203.0.113.5\n")).1 "203.0.113.5\n" rfl (by decide),
   by decide⟩

/-- C9: success of a remote fetch is detected by truthiness of the returned
body, so a fetch that completes with an empty body is treated exactly like
an exhausted fetch: `get_public_ip` returns `"N/A (Connection Failed)"` and
`get_geolocation` returns `"N/A (Location Lookup Failed)"`. -/
theorem empty_body_failure (o1 o2 : Nat → Option String) (ip : String)
    (p : String → JsonOutcome)
    (h1 : (fetch_data_with_retry PUBLIC_IP_SERVICE_URL o1).2 = some "")
    (h2 : (fetch_data_with_retry GEOLOCATION_SERVICE_URL o2).2 = some "")
    (hip : ip ≠ "N/A (Connection Failed)") :
    (get_public_ip o1).2 = "N/A (Connection Failed)" ∧
    (get_geolocation ip o2 p).2 = Except.ok "N/A (Location Lookup Failed)" := by
  constructor
  · simp [get_public_ip, h1]
  · simp [get_geolocation, hip, h2]

/-- Witness for C9: both services answer an empty body on the first
attempt. -/
theorem empty_body_failure_witness :
    (get_public_ip (fun _ => some "")).2 = "N/A (Connection Failed)" ∧
    (get_geolocation "203.0.113.5" (fun _ => some "")
        (fun _ => JsonOutcome.decodeError)).2 =
      Except.ok "N/A (Location Lookup Failed)" :=
  empty_body_failure (fun _ => some "") (fun _ => some "") "203.0.113.5"
    (fun _ => JsonOutcome.decodeError) rfl rfl (by decide)

/-- `fetchCountTo` distributes over trace concatenation. -/
theorem fetchCountTo_append (u : String) (a b : List Ev) :
    fetchCountTo u (a ++ b) = fetchCountTo u a + fetchCountTo u b :=
  List.countP_append _ _ _

/-- `get_local_info` performs no `urlopen` attempt: its trace holds only
socket events. -/
theorem local_info_no_fetch (u : String) (lenv : LocalEnv) :
    fetchCountTo u (get_local_info lenv).1 = 0 := by
  obtain ⟨ghn, sc, cg, ghb⟩ := lenv
  cases ghn with
  | error e => cases e <;> rfl
  | ok hn =>
    cases sc with
    | error e => cases e <;> rfl
    | ok v =>
      cases cg with
      | ok ip => rfl
      | error e =>
        cases ghb with
        | ok ip => rfl
        | error e2 => cases e2 <;> rfl

/-- C5: whenever the socket primitives fail only with `socket.error` (the
exception class the `socket` module documents for them), `get_local_info`
never raises to its caller: it returns a pair of strings, degrading to
`("N/A", "N/A")` or to the hostname paired with `"N/A"`, with any returned
IP coming from the connect trick or the `gethostbyname` fallback; and the
datagram socket is closed exactly as often as it is opened, on every exit
path. -/
theorem local_info_never_raises (lenv : LocalEnv)
    (h1 : ∀ e, lenv.gethostname = Except.error e → e = PyExc.sockErr)
    (h2 : ∀ e, lenv.socketCreate = Except.error e → e = PyExc.sockErr)
    (h3 : ∀ e, lenv.gethostbyname = Except.error e → e = PyExc.sockErr) :
    (∃ hn ip, (get_local_info lenv).2 = Except.ok (hn, ip)) ∧
    sockOpenCount (get_local_info lenv).1 = sockCloseCount (get_local_info lenv).1 ∧
    ((get_local_info lenv).2 = Except.ok ("N/A", "N/A") ∨
      ∃ hn, lenv.gethostname = Except.ok hn ∧
        ((get_local_info lenv).2 = Except.ok (hn, "N/A") ∨
          ∃ ip, (get_local_info lenv).2 = Except.ok (hn, ip) ∧
            (lenv.connectGetsockname = Except.ok ip ∨ lenv.gethostbyname = Except.ok ip))) := by
  obtain ⟨ghn, sc, cg, ghb⟩ := lenv
  cases ghn with
  | error e =>
    cases h1 e rfl
    exact ⟨⟨"N/A", "N/A", rfl⟩, rfl, Or.inl rfl⟩
  | ok hn =>
    cases sc with
    | error e =>
      cases h2 e rfl
      exact ⟨⟨hn, "N/A", rfl⟩, rfl, Or.inr ⟨hn, rfl, Or.inl rfl⟩⟩
    | ok v =>
      cases cg with
      | ok ip =>
        exact ⟨⟨hn, ip, rfl⟩, rfl, Or.inr ⟨hn, rfl, Or.inr ⟨ip, rfl, Or.inl rfl⟩⟩⟩
      | error e =>
        cases ghb with
        | ok ip =>
          exact ⟨⟨hn, ip, rfl⟩, rfl, Or.inr ⟨hn, rfl, Or.inr ⟨ip, rfl, Or.inr rfl⟩⟩⟩
        | error e2 =>
          cases h3 e2 rfl
          exact ⟨⟨hn, "N/A", rfl⟩, rfl, Or.inr ⟨hn, rfl, Or.inl rfl⟩⟩

/-- Witness for C5 at the all-successful local environment. -/
theorem local_info_never_raises_witness :
    (∃ hn ip, (get_local_info lenvOk).2 = Except.ok (hn, ip)) ∧
    sockOpenCount (get_local_info lenvOk).1 = sockCloseCount (get_local_info lenvOk).1 ∧
    ((get_local_info lenvOk).2 = Except.ok ("N/A", "N/A") ∨
      ∃ hn, lenvOk.gethostname = Except.ok hn ∧
        ((get_local_info lenvOk).2 = Except.ok (hn, "N/A") ∨
          ∃ ip, (get_local_info lenvOk).2 = Except.ok (hn, ip) ∧
            (lenvOk.connectGetsockname = Except.ok ip ∨
              lenvOk.gethostbyname = Except.ok ip))) :=
  local_info_never_raises lenvOk (fun _ h => nomatch h) (fun _ h => nomatch h)
    (fun _ h => nomatch h)

/-- C2: when every WAN IP fetch attempt fails, `main`'s whole run performs
zero `urlopen` attempts against the geolocation service (it skips the
`get_geolocation` call entirely), and `get_geolocation` applied to the
WAN-failure sentinel short-circuits with no event at all to
`"N/A (Requires Public IP)"`. -/
theorem geolocation_skipped_on_wan_failure (env : Env) (oracle : Nat → Option String)
    (p : String → JsonOutcome) (h : ∀ i, env.ipOracle i = none) :
    fetchCountTo GEOLOCATION_SERVICE_URL (main env).1 = 0 ∧
    get_geolocation "N/A (Connection Failed)" oracle p =
      ([], Except.ok "N/A (Requires Public IP)") := by
  constructor
  · have hip : get_public_ip env.ipOracle =
        ([Ev.fetch PUBLIC_IP_SERVICE_URL 0 5, Ev.sleep 1,
          Ev.fetch PUBLIC_IP_SERVICE_URL 1 5, Ev.sleep 2,
          Ev.fetch PUBLIC_IP_SERVICE_URL 2 5], "N/A (Connection Failed)") := by
      simp [get_public_ip, fetch_data_with_retry, fetchAttempts, h, MAX_RETRIES,
        INITIAL_DELAY]
    have hl := local_info_no_fetch GEOLOCATION_SERVICE_URL env.localEnv
    simp only [main]
    rcases hg : get_local_info env.localEnv with ⟨ltr, lres⟩
    rw [hg] at hl
    cases lres with
    | error e =>
      simp only [fetchCountTo_append, hl]
      rfl
    | ok pr =>
      obtain ⟨hn, lip⟩ := pr
      simp [hip, fetchCountTo, List.countP_append, List.countP_cons,
        PUBLIC_IP_SERVICE_URL, GEOLOCATION_SERVICE_URL]
      simpa [fetchCountTo, GEOLOCATION_SERVICE_URL] using hl
  · rfl

/-- Witness for C2 at the environment where every external call fails. -/
theorem geolocation_skipped_witness :
    fetchCountTo GEOLOCATION_SERVICE_URL (main envFail).1 = 0 ∧
    get_geolocation "N/A (Connection Failed)" (fun _ => none)
      (fun _ => JsonOutcome.decodeError) = ([], Except.ok "N/A (Requires Public IP)") :=
  geolocation_skipped_on_wan_failure envFail (fun _ => none)
    (fun _ => JsonOutcome.decodeError) (fun _ => rfl)

/-- C3: evaluation of `get_geolocation` on a non-sentinel public IP.  A dict
response is formatted `"city, region, country"` with each absent field
defaulting independently, and the spec's Paris example yields
`"Paris, Ile-de-France, FR"`; a body that fails JSON decoding yields the
invalid-response sentinel; an exhausted fetch yields the lookup-failed
sentinel.  But on a body such as `"[1, 2]"` — valid JSON that is not
key/value data — `json.loads` succeeds with a list, `data.get("city", ...)`
raises `AttributeError`, and the only handler (`except json.JSONDecodeError`)
does not catch it, so the call raises instead of returning the
invalid-response sentinel the claim requires. -/
theorem geolocation_parse_behavior :
    (get_geolocation "203.0.113.5"
        (fun _ => some "\x7b\"city\":\"Paris\",\"region\":\"Ile-de-France\",\"country\":\"FR\"\x7d")
        (fun _ => JsonOutcome.object
          [("city", "Paris"), ("region", "Ile-de-France"), ("country", "FR")])).2 =
      Except.ok "Paris, Ile-de-France, FR" ∧
    (get_geolocation "203.0.113.5"
        (fun _ => some "\x7b\"city\":\"Paris\",\"country\":\"FR\"\x7d")
        (fun _ => JsonOutcome.object [("city", "Paris"), ("country", "FR")])).2 =
      Except.ok "Paris, Unknown Region, FR" ∧
    (get_geolocation "203.0.113.5" (fun _ => some "not json")
        (fun _ => JsonOutcome.decodeError)).2 =
      Except.ok "N/A (Invalid response from location service)" ∧
    (get_geolocation "203.0.113.5" (fun _ => none)
        (fun _ => JsonOutcome.decodeError)).2 =
      Except.ok "N/A (Location Lookup Failed)" ∧
    (get_geolocation "203.0.113.5" (fun _ => some "[1, 2]")
        (fun _ => JsonOutcome.nonObject)).2 = Except.error PyExc.attrErr :=
  ⟨rfl, rfl, rfl, rfl, rfl⟩

/-- C4: handled failures are indeed non-fatal — with every socket primitive
raising `socket.error`, every fetch attempt failing and the webhook POST
raising, the full run still finishes with exit status 0.  But the claim is
not universal: run as the main program with a successful WAN IP fetch and a
geolocation response of `"[1, 2]"`, the uncaught `AttributeError` from
`get_geolocation` kills the process — the run ends in an error (traceback,
nonzero exit status) and the webhook POST never happens. -/
theorem module_crash_on_nonobject_json :
    (moduleRun true envFail envFail (Except.error PyExc.otherErr)).2 = Except.ok () ∧
    (moduleRun true envBug envBug (Except.ok ())).2 = Except.error PyExc.attrErr ∧
    postCount (moduleRun true envBug envBug (Except.ok ())).1 = 0 :=
  ⟨rfl, rfl, rfl⟩

/-- The captured buffer of a concatenated trace splits at the seam. -/
theorem render_append (a b : List Ev) : render (a ++ b) = render a ++ render b := by
  induction a with
  | nil => rfl
  | cons x rest ih => cases x <;> simp [render, ih, String.append_assoc]

/-- C6: executed as the main program, `main` runs exactly twice — once via
the entry-point guard and once via the unconditional top-level call — so the
module's trace is two consecutive copies of `main`'s trace followed by the
webhook POST, whose `content` carries two consecutive copies of the full
report inside one fenced block. -/
theorem main_runs_twice (env : Env) (outcome : Except PyExc Unit)
    (h : (main env).2 = Except.ok ()) :
    moduleRun true env env outcome =
      ((main env).1 ++ (main env).1 ++
        [Ev.post ("```json\n" ++ (render (main env).1 ++ render (main env).1) ++ "\n```")
          3],
       Except.ok ()) := by
  cases outcome <;> simp [moduleRun, send_to_webhook, h, render_append]

/-- Witness for C6 at the all-successful environment. -/
theorem main_runs_twice_witness :
    moduleRun true envOk envOk (Except.ok ()) =
      ((main envOk).1 ++ (main envOk).1 ++
        [Ev.post
          ("```json\n" ++ (render (main envOk).1 ++ render (main envOk).1) ++ "\n```") 3],
       Except.ok ()) :=
  main_runs_twice envOk (Except.ok ()) rfl

/-- C10: importing the module (so the entry-point guard is false) still
performs the whole pipeline once: stdout is already redirected at import
time, the unconditional top-level `main()` call runs, and the captured
report is POSTed to the webhook — loading the module has these side effects
unconditionally. -/
theorem import_runs_pipeline_once (env : Env) (outcome : Except PyExc Unit)
    (h : (main env).2 = Except.ok ()) :
    moduleRun false env env outcome =
      ((main env).1 ++ [Ev.post ("```json\n" ++ render (main env).1 ++ "\n```") 3],
       Except.ok ()) := by
  cases outcome <;> simp [moduleRun, send_to_webhook, h]

/-- Witness for C10 at the all-successful environment. -/
theorem import_runs_pipeline_once_witness :
    moduleRun false envOk envOk (Except.ok ()) =
      ((main envOk).1 ++
        [Ev.post ("```json\n" ++ render (main envOk).1 ++ "\n```") 3],
       Except.ok ()) :=
  import_runs_pipeline_once envOk (Except.ok ()) rfl

end Locationgrabber
